import Mathlib

/-
Shallow embedding of the libretro core in src/src/lib.c (the render-surface
negotiation and frame-draw pipeline).  Host-supplied function pointers are
modelled as `Option Nat` (only their presence and identity matter); the
outcomes of GPU and host calls that the code branches on (shader compile
status, framebuffer completeness, the handle returned by
get_current_framebuffer, ...) are supplied by oracle records (GLApi,
TickHost, LoadEnv).  Every externally visible action the code performs
(GL calls, host callback invocations, error logs) is recorded as an event
in an emitted trace, so that temporal and error-handling properties can be
stated over traces.  Float arithmetic in draw_solid_quad is modelled
exactly over the rationals.  Error logs are tagged with the specification
taxonomy of section 7 (CapabilityMissing, ContextInitFailure,
SurfaceInvalid, GraphicsCallError) according to the log site; error logs
that fit no kind are tagged errOther.
-/

namespace GladCore

/-- Framebuffer dimensions, lib.c lines 11-14. -/
def WIDTH : Nat := 320

/-- Logical framebuffer height, lib.c line 12. -/
def HEIGHT : Nat := 240

/-- Hardware render target width, lib.c line 13. -/
def HW_WIDTH : Nat := 512

/-- Hardware render target height, lib.c line 14. -/
def HW_HEIGHT : Nat := 512

/-- Error taxonomy of spec section 7. -/
inductive ErrKind where
  | capabilityMissing
  | contextInitFailure
  | surfaceInvalid
  | graphicsCallError
  deriving DecidableEq

/-- Externally visible actions of the core: GL calls, host-callback
invocations and log lines.  logNote covers the non-error log lines,
logWarn the RETRO_LOG_WARN lines, err k an error log tagged with the
spec taxonomy, errOther an error log fitting no kind of the taxonomy. -/
inductive Ev where
  | err (k : ErrKind)
  | errOther
  | logNote
  | logWarn
  | createShader (id : Nat)
  | createProgram (id : Nat)
  | deleteShader (id : Nat)
  | deleteProgram (id : Nat)
  | deleteBuffer (id : Nat)
  | deleteVertexArray (id : Nat)
  | genVertexArray (id : Nat)
  | genBuffer (id : Nat)
  | glSetupState
  | bindFramebuffer (fbo : Nat)
  | callGetCurrentFramebuffer
  | checkFramebufferStatus
  | glClear
  | glViewport (w h : Nat)
  | drawQuad (x y w h vpW vpH r g b a : ℚ)
  | present (hasBuffer : Bool) (w h pitch : Nat)
  | inputPoll
  deriving DecidableEq

/-- An event is a call into the GPU API (as opposed to a host-callback
invocation or a log line). -/
def Ev.isGpu : Ev → Bool
  | .createShader _ => true
  | .createProgram _ => true
  | .deleteShader _ => true
  | .deleteProgram _ => true
  | .deleteBuffer _ => true
  | .deleteVertexArray _ => true
  | .genVertexArray _ => true
  | .genBuffer _ => true
  | .glSetupState => true
  | .bindFramebuffer _ => true
  | .checkFramebufferStatus => true
  | .glClear => true
  | .glViewport _ _ => true
  | .drawQuad _ _ _ _ _ _ _ _ _ _ => true
  | _ => false

/-- An event is a GPU allocation (shader/program creation, buffer or
vertex-array generation). -/
def Ev.isAlloc : Ev → Bool
  | .createShader _ => true
  | .createProgram _ => true
  | .genVertexArray _ => true
  | .genBuffer _ => true
  | _ => false

/-- The mutable module state of lib.c (the file-scope statics that the
claims are about).  Callbacks are Option Nat: none models a NULL function
pointer, some n a non-null pointer with identity n.  The framebuffer
array (lib.c line 36) is a map from index to 16-bit pixel value. -/
structure CoreState where
  environCb : Option Nat
  videoCb : Option Nat
  inputPollCb : Option Nat
  inputStateCb : Option Nat
  getCurrentFramebuffer : Option Nat
  initialized : Bool
  contentlessSet : Bool
  pixelFormatSet : Bool
  envCallCount : Nat
  glInitialized : Bool
  useDefaultFbo : Bool
  useSoftwareRendering : Bool
  solidShaderProgram : Nat
  vao : Nat
  vbo : Nat
  framebuffer : Nat → Nat

/-- Initial values of the statics: callbacks NULL, flags false except
use_default_fbo which is initialized true (lib.c line 32),
use_software_rendering false (line 35), arrays zero-initialized. -/
def initState : CoreState where
  environCb := none
  videoCb := none
  inputPollCb := none
  inputStateCb := none
  getCurrentFramebuffer := none
  initialized := false
  contentlessSet := false
  pixelFormatSet := false
  envCallCount := 0
  glInitialized := false
  useDefaultFbo := true
  useSoftwareRendering := false
  solidShaderProgram := 0
  vao := 0
  vbo := 0
  framebuffer := fun _ => 0

/-- Oracle for the outcomes of the GL calls made while initializing
OpenGL: whether gladLoadGL succeeds, the object ids handed out by
glCreateShader / glCreateProgram / glGenVertexArrays / glGenBuffers, and
the compile/link statuses the driver reports. -/
structure GLApi where
  gladOk : Bool
  vsId : Nat
  fsId : Nat
  progId : Nat
  vsCompileOk : Bool
  fsCompileOk : Bool
  linkOk : Bool
  vaoId : Nat
  vboId : Nat

/-- create_shader_program, lib.c lines 108-160.  Returns the program id
(0 on failure) and the trace of GL calls and logs.  Note the failure
paths return without deleting the shaders or the program that were
already created. -/
def create_shader_program (api : GLApi) : Nat × List Ev :=
  if api.vsCompileOk = false then
    (0, [Ev.createShader api.vsId, Ev.err ErrKind.contextInitFailure])
  else if api.fsCompileOk = false then
    (0, [Ev.createShader api.vsId, Ev.createShader api.fsId,
         Ev.err ErrKind.contextInitFailure])
  else if api.linkOk = false then
    (0, [Ev.createShader api.vsId, Ev.createShader api.fsId,
         Ev.createProgram api.progId, Ev.err ErrKind.contextInitFailure])
  else
    (api.progId,
     [Ev.createShader api.vsId, Ev.createShader api.fsId,
      Ev.createProgram api.progId, Ev.deleteShader api.vsId,
      Ev.deleteShader api.fsId, Ev.logNote])

/-- init_opengl, lib.c lines 163-222.  Returns immediately if already
initialized; returns on gladLoadGL failure before touching any static.
Line 187 then stores create_shader_program's result into
solid_shader_program unconditionally — 0 on compile/link failure, which
overwrites any stale program id — before the failure check returns with
gl_initialized still false.  On success the store holds the new program
id and the vao/vbo ids are generated, blend/depth/cull state is set up
and gl_initialized is set. -/
def init_opengl (api : GLApi) (s : CoreState) : CoreState × List Ev :=
  if s.glInitialized then
    (s, [Ev.logNote])
  else if api.gladOk = false then
    (s, [Ev.err ErrKind.contextInitFailure])
  else
    let r := create_shader_program api
    let s1 := {s with solidShaderProgram := r.1}
    if r.1 = 0 then
      (s1, Ev.logNote :: r.2 ++ [Ev.err ErrKind.contextInitFailure])
    else
      ({s1 with vao := api.vaoId, vbo := api.vboId, glInitialized := true},
       Ev.logNote :: r.2 ++
         [Ev.genVertexArray api.vaoId, Ev.genBuffer api.vboId,
          Ev.glSetupState, Ev.logNote])

/-- deinit_opengl, lib.c lines 225-236: releases the program, buffer and
vertex array if initialized, otherwise a no-op. -/
def deinit_opengl (s : CoreState) : CoreState × List Ev :=
  if s.glInitialized then
    ({s with glInitialized := false},
     [Ev.deleteProgram s.solidShaderProgram, Ev.deleteBuffer s.vbo,
      Ev.deleteVertexArray s.vao, Ev.logNote])
  else
    (s, [])

/-- NDC conversion of draw_solid_quad, lib.c lines 262-265, float
arithmetic modelled exactly over the rationals. -/
def quadNDC (x y w h vw vh : ℚ) : ℚ × ℚ × ℚ × ℚ :=
  ((x / vw) * 2 - 1, 1 - (y / vh) * 2,
   ((x + w) / vw) * 2 - 1, 1 - ((y + h) / vh) * 2)

/-- Vertex upload of draw_solid_quad, lib.c lines 267-272: the 4-vertex
triangle strip (x0,y0),(x1,y0),(x0,y1),(x1,y1). -/
def draw_solid_quad_vertices (x y w h vw vh : ℚ) : List (ℚ × ℚ) :=
  ((quadNDC x y w h vw vh).1, (quadNDC x y w h vw vh).2.1) ::
  ((quadNDC x y w h vw vh).2.2.1, (quadNDC x y w h vw vh).2.1) ::
  ((quadNDC x y w h vw vh).1, (quadNDC x y w h vw vh).2.2.2) ::
  ((quadNDC x y w h vw vh).2.2.1, (quadNDC x y w h vw vh).2.2.2) :: []

/-- retro_set_environment, lib.c lines 305-334.  Stores the callback
unconditionally (also when NULL), bumps the call counter, logs an error
and returns on NULL, otherwise attempts the content-less negotiation once
(noGameOk is the host's answer to SET_SUPPORT_NO_GAME). -/
def retro_set_environment (cb : Option Nat) (noGameOk : Bool)
    (s : CoreState) : CoreState × List Ev :=
  let s1 := {s with environCb := cb, envCallCount := s.envCallCount + 1}
  match cb with
  | none => (s1, [Ev.err ErrKind.capabilityMissing])
  | some _ =>
    if s1.contentlessSet then
      (s1, [Ev.logNote])
    else if noGameOk then
      ({s1 with contentlessSet := true}, [Ev.logNote, Ev.logNote])
    else
      (s1, [Ev.logNote, Ev.err ErrKind.capabilityMissing])

/-- retro_set_video_refresh, lib.c lines 337-343: stores the callback
unconditionally (no NULL check) and logs a non-error note. -/
def retro_set_video_refresh (cb : Option Nat) (s : CoreState) :
    CoreState × List Ev :=
  ({s with videoCb := cb}, [Ev.logNote])

/-- retro_set_input_poll, lib.c lines 346-352. -/
def retro_set_input_poll (cb : Option Nat) (s : CoreState) :
    CoreState × List Ev :=
  ({s with inputPollCb := cb}, [Ev.logNote])

/-- retro_set_input_state, lib.c lines 354-360. -/
def retro_set_input_state (cb : Option Nat) (s : CoreState) :
    CoreState × List Ev :=
  ({s with inputStateCb := cb}, [Ev.logNote])

/-- retro_init, lib.c lines 367-386: sets initialized and binds the
logging interface (the log callback itself is abstracted away). -/
def retro_init (s : CoreState) : CoreState × List Ev :=
  ({s with initialized := true}, [Ev.logNote])

/-- retro_deinit, lib.c lines 389-405: deinitializes OpenGL and resets
initialized, contentless_set, pixel_format_set and env_call_count.
Note it does not touch use_default_fbo. -/
def retro_deinit (s : CoreState) : CoreState × List Ev :=
  let r := deinit_opengl s
  ({r.1 with initialized := false, contentlessSet := false,
             pixelFormatSet := false, envCallCount := 0},
   r.2 ++ [Ev.logNote])

/-- retro_reset, lib.c lines 448-453: logs a note and changes nothing. -/
def retro_reset (s : CoreState) : CoreState × List Ev :=
  (s, [Ev.logNote])

/-- Host behaviour during retro_load_game: whether SET_HW_RENDER is
accepted, the get_current_framebuffer pointer the frontend writes into
the hw_render struct, and the answers to the (up to three) pixel-format
negotiation attempts of the software path. -/
structure LoadEnv where
  setHwRenderOk : Bool
  hostGcf : Option Nat
  pfAnswers : Nat → Bool

/-- Pixel-format retry loop of lib.c lines 470-488: up to the given
number of attempts, succeeding as soon as the host accepts one. -/
def pfRetryLoop (ans : Nat → Bool) : Nat → Bool
  | 0 => false
  | n + 1 => if ans n then true else pfRetryLoop ans n

/-- retro_load_game, lib.c lines 456-549.  Returns the boolean result
together with the new state and trace.  Fails (false) when the
environment callback is unbound; in software mode fails when the
pixel-format negotiation is refused three times; in hardware mode fails
when SET_HW_RENDER is refused, and otherwise stores the frontend's
get_current_framebuffer pointer, forcing use_default_fbo to true when
that pointer is NULL (and leaving it unchanged otherwise). -/
def retro_load_game (env : LoadEnv) (s : CoreState) :
    Bool × CoreState × List Ev :=
  match s.environCb with
  | none => (false, s, [Ev.err ErrKind.capabilityMissing])
  | some _ =>
    if s.useSoftwareRendering then
      if s.pixelFormatSet then
        (true, s, [Ev.logNote, Ev.logNote])
      else if pfRetryLoop env.pfAnswers 3 then
        (true, {s with pixelFormatSet := true}, [Ev.logNote, Ev.logNote])
      else
        (false, s, [Ev.err ErrKind.capabilityMissing])
    else
      if env.setHwRenderOk = false then
        (false, s, [Ev.err ErrKind.capabilityMissing])
      else
        match env.hostGcf with
        | none =>
          (true, {s with getCurrentFramebuffer := none, useDefaultFbo := true},
           [Ev.err ErrKind.capabilityMissing, Ev.logNote])
        | some g =>
          (true, {s with getCurrentFramebuffer := some g},
           [Ev.logNote, Ev.logNote])

/-- Host behaviour during one retro_run tick: the handle that
get_current_framebuffer would return, the framebuffer completeness
status, and the glIsProgram / glIsVertexArray / glIsBuffer verdicts. -/
structure TickHost where
  gcfHandle : Nat
  fbComplete : Bool
  progLive : Bool
  vaoLive : Bool
  vboLive : Bool

/-- Framebuffer binding of retro_run, lib.c lines 630-667.  With
use_default_fbo set or no get_current_framebuffer callback, binds the
default framebuffer with a warning and does not invoke the callback.
Otherwise invokes the callback: a zero handle or an incomplete target
falls back to the default framebuffer and sets use_default_fbo. -/
def bindHwFramebuffer (t : TickHost) (s : CoreState) :
    CoreState × List Ev :=
  if s.useDefaultFbo || s.getCurrentFramebuffer.isNone then
    (s, [Ev.bindFramebuffer 0, Ev.logWarn])
  else if t.gcfHandle = 0 then
    ({s with useDefaultFbo := true},
     [Ev.callGetCurrentFramebuffer, Ev.err ErrKind.surfaceInvalid,
      Ev.bindFramebuffer 0])
  else if t.fbComplete = false then
    ({s with useDefaultFbo := true},
     [Ev.callGetCurrentFramebuffer, Ev.bindFramebuffer t.gcfHandle,
      Ev.checkFramebufferStatus, Ev.err ErrKind.surfaceInvalid,
      Ev.bindFramebuffer 0])
  else
    (s, [Ev.callGetCurrentFramebuffer, Ev.bindFramebuffer t.gcfHandle,
         Ev.checkFramebufferStatus, Ev.logNote])

/-- Software branch of retro_run, lib.c lines 569-587: fill all
WIDTH*HEIGHT entries of the framebuffer with 0x07E0 (green in RGB565),
then present with pitch WIDTH * sizeof(uint16_t) if the video callback
is bound, else log an error and return.  The fill happens before the
callback check, exactly as in the code. -/
def softwareTick (s : CoreState) : CoreState × List Ev :=
  let s1 := {s with framebuffer :=
    fun i => if i < WIDTH * HEIGHT then 0x07E0 else s.framebuffer i}
  match s.videoCb with
  | some _ => (s1, [Ev.present true WIDTH HEIGHT (WIDTH * 2)])
  | none => (s1, [Ev.errOther])

/-- Hardware branch of retro_run, lib.c lines 589-701: precondition
checks (gl_initialized, live program/vao/vbo), framebuffer binding,
clear, viewport, the full-screen green quad draw (lib.c line 681:
draw_solid_quad(0, 0, 512, 512, 0, 1, 0, 1, 512, 512)), unbind, and
present with a NULL buffer. -/
def hardwareTick (t : TickHost) (s : CoreState) : CoreState × List Ev :=
  if s.glInitialized = false then (s, [Ev.errOther])
  else if t.progLive = false then (s, [Ev.errOther])
  else if t.vaoLive = false then (s, [Ev.errOther])
  else if t.vboLive = false then (s, [Ev.errOther])
  else
    let r := bindHwFramebuffer t s
    let evs := r.2 ++
      [Ev.glClear, Ev.glViewport HW_WIDTH HW_HEIGHT,
       Ev.drawQuad 0 0 512 512 512 512 0 1 0 1, Ev.bindFramebuffer 0]
    match s.videoCb with
    | some _ => (r.1, evs ++ [Ev.present false WIDTH HEIGHT 0])
    | none => (r.1, evs ++ [Ev.errOther])

/-- retro_run, lib.c lines 552-708.  Note the procedure never invokes
the stored input-poll or input-state callbacks. -/
def retro_run (t : TickHost) (s : CoreState) : CoreState × List Ev :=
  if s.initialized = false then (s, [Ev.errOther])
  else if s.useSoftwareRendering then softwareTick s
  else hardwareTick t s

/-- One host-driven call into the core, with the oracle data the call
consumes. -/
inductive ApiCall where
  | setEnvironment (cb : Option Nat) (noGameOk : Bool)
  | setVideoRefresh (cb : Option Nat)
  | setInputPoll (cb : Option Nat)
  | setInputState (cb : Option Nat)
  | init
  | deinit
  | reset
  | loadGame (env : LoadEnv)
  | contextReset (api : GLApi)
  | contextDestroy
  | run (t : TickHost)

/-- State transition of one host call (trace discarded). -/
def step (s : CoreState) : ApiCall → CoreState
  | .setEnvironment cb ok => (retro_set_environment cb ok s).1
  | .setVideoRefresh cb => (retro_set_video_refresh cb s).1
  | .setInputPoll cb => (retro_set_input_poll cb s).1
  | .setInputState cb => (retro_set_input_state cb s).1
  | .init => (retro_init s).1
  | .deinit => (retro_deinit s).1
  | .reset => (retro_reset s).1
  | .loadGame env => (retro_load_game env s).2.1
  | .contextReset api => (init_opengl api s).1
  | .contextDestroy => (deinit_opengl s).1
  | .run t => (retro_run t s).1

end GladCore

namespace GladCore

/-- GL oracle where every GL-side operation succeeds. -/
def glApiOk : GLApi := ⟨true, 1, 2, 3, true, true, true, 10, 11⟩

/-- GL oracle whose vertex-shader compilation fails. -/
def glApiVsFail : GLApi := ⟨true, 1, 2, 3, false, true, true, 10, 11⟩

/-- Load environment where the host accepts hardware rendering and
provides a surface-acquire callback. -/
def hostEnvOk : LoadEnv := ⟨true, some 1, fun _ => true⟩

/-- Concrete hardware-ready state: core initialized, OpenGL initialized,
video and input-poll callbacks bound, use_default_fbo at its initial
value true. -/
def hwReadyState : CoreState :=
  {initState with initialized := true, glInitialized := true,
                  videoCb := some 4, inputPollCb := some 3,
                  solidShaderProgram := 3, vao := 10, vbo := 11}

/-- Tick oracle where all liveness checks pass and the host would hand
out framebuffer handle 1 with a complete target. -/
def tickOk : TickHost := ⟨1, true, true, true, true⟩

/-- C2: for every rectangle and every positive viewport, draw_solid_quad
computes exactly ndc_x0 = (x/vw)*2-1, ndc_y0 = 1-(y/vh)*2,
ndc_x1 = ((x+w)/vw)*2-1, ndc_y1 = 1-((y+h)/vh)*2 and uploads the
4-vertex triangle strip (x0,y0),(x1,y0),(x0,y1),(x1,y1); in particular
the input (0,0,vw,vh) yields corners (-1,1),(1,1),(-1,-1),(1,-1). -/
theorem c2_draw_quad_ndc_exact (x y w h vw vh : ℚ)
    (hvw : 0 < vw) (hvh : 0 < vh) :
    draw_solid_quad_vertices x y w h vw vh =
      [((x / vw) * 2 - 1, 1 - (y / vh) * 2),
       (((x + w) / vw) * 2 - 1, 1 - (y / vh) * 2),
       ((x / vw) * 2 - 1, 1 - ((y + h) / vh) * 2),
       (((x + w) / vw) * 2 - 1, 1 - ((y + h) / vh) * 2)] ∧
    draw_solid_quad_vertices 0 0 vw vh vw vh =
      [(-1, 1), (1, 1), (-1, -1), (1, -1)] := by
  have hvw0 : vw ≠ 0 := ne_of_gt hvw
  have hvh0 : vh ≠ 0 := ne_of_gt hvh
  constructor
  · rfl
  · simp [draw_solid_quad_vertices, quadNDC, div_self hvw0, div_self hvh0]
    norm_num

/-- Witness for C2: concrete rectangle (1,2,3,4) in a 5-by-6 viewport,
with the full-viewport corner check evaluated. -/
theorem c2_witness :
    (0 : ℚ) < 5 ∧ (0 : ℚ) < 6 ∧
    draw_solid_quad_vertices 0 0 5 6 5 6 =
      [(-1, 1), (1, 1), (-1, -1), (1, -1)] :=
  ⟨by norm_num, by norm_num,
   (c2_draw_quad_ndc_exact 1 2 3 4 5 6 (by norm_num) (by norm_num)).2⟩

/-- C4: calling create() (init_opengl) twice without an intervening
destroy() performs GPU allocation exactly once: after a successful first
call the second call returns the state unchanged, issues no GPU calls at
all, and the allocation events of the combined trace are exactly those
of the first call. -/
theorem c4_create_idempotent (api1 api2 : GLApi) (s : CoreState)
    (h0 : s.glInitialized = false) (h1 : api1.gladOk = true)
    (h2 : api1.vsCompileOk = true) (h3 : api1.fsCompileOk = true)
    (h4 : api1.linkOk = true) (h5 : api1.progId ≠ 0) :
    (init_opengl api1 s).1.glInitialized = true ∧
    (init_opengl api2 (init_opengl api1 s).1).1 = (init_opengl api1 s).1 ∧
    (init_opengl api2 (init_opengl api1 s).1).2.filter Ev.isGpu = [] ∧
    ((init_opengl api1 s).2 ++
       (init_opengl api2 (init_opengl api1 s).1).2).filter Ev.isAlloc
      = (init_opengl api1 s).2.filter Ev.isAlloc := by
  have e1 : init_opengl api1 s =
      ({s with solidShaderProgram := api1.progId, vao := api1.vaoId,
               vbo := api1.vboId, glInitialized := true},
       [Ev.logNote, Ev.createShader api1.vsId, Ev.createShader api1.fsId,
        Ev.createProgram api1.progId, Ev.deleteShader api1.vsId,
        Ev.deleteShader api1.fsId, Ev.logNote, Ev.genVertexArray api1.vaoId,
        Ev.genBuffer api1.vboId, Ev.glSetupState, Ev.logNote]) := by
    simp [init_opengl, create_shader_program, h0, h1, h2, h3, h4, h5]
  have hready : (init_opengl api1 s).1.glInitialized = true := by
    rw [e1]
  have hsecond : init_opengl api2 (init_opengl api1 s).1
      = ((init_opengl api1 s).1, [Ev.logNote]) := by
    rw [e1]
    simp [init_opengl]
  refine ⟨hready, ?_, ?_, ?_⟩
  · rw [hsecond]
  · rw [hsecond]; rfl
  · rw [hsecond, List.filter_append]; simp [Ev.isAlloc]

/-- Witness for C4: both calls with the all-success GL oracle from the
initial state. -/
theorem c4_witness :
    (init_opengl glApiOk initState).1.glInitialized = true ∧
    (init_opengl glApiOk (init_opengl glApiOk initState).1).2.filter
      Ev.isGpu = [] := by
  obtain ⟨a, -, c, -⟩ :=
    c4_create_idempotent glApiOk glApiOk initState rfl rfl rfl rfl rfl
      (by decide)
  exact ⟨a, c⟩

/-- Counterexample to C5: when the vertex shader fails to compile, the
ready flag indeed stays false, but the vertex shader object that was
created before the failure point is never released: the trace of
init_opengl contains its creation and no matching delete, refuting
"every GPU object created before the failure point is released before
create() returns". -/
theorem c5_counterexample :
    (init_opengl glApiVsFail initState).1.glInitialized = false ∧
    Ev.createShader 1 ∈ (init_opengl glApiVsFail initState).2 ∧
    Ev.deleteShader 1 ∉ (init_opengl glApiVsFail initState).2 := by
  refine ⟨rfl, ?_, ?_⟩ <;> decide

/-- C5 as amended: on every failure path of create() (proc-table
resolution failure, shader compile failure, or link failure) the context
remains Uninitialized — the ready flag stays false — but the GPU objects
created before the failure point are leaked, not released: no shader
delete is issued on any failure path (in particular the vertex shader
leaks when its compilation fails). -/
theorem c5_failure_leaves_uninitialized_but_leaks (api : GLApi)
    (s : CoreState) (h0 : s.glInitialized = false)
    (hfail : api.gladOk = false ∨ api.vsCompileOk = false ∨
             api.fsCompileOk = false ∨ api.linkOk = false) :
    (init_opengl api s).1.glInitialized = false ∧
    (∀ id, Ev.deleteShader id ∉ (init_opengl api s).2) ∧
    (api.gladOk = true → api.vsCompileOk = false →
       Ev.createShader api.vsId ∈ (init_opengl api s).2) := by
  refine ⟨?_, ?_, ?_⟩
  · cases hg : api.gladOk <;> cases hvs : api.vsCompileOk <;>
      cases hfs : api.fsCompileOk <;> cases hlk : api.linkOk <;>
      simp_all [init_opengl, create_shader_program]
  · intro id
    cases hg : api.gladOk <;> cases hvs : api.vsCompileOk <;>
      cases hfs : api.fsCompileOk <;> cases hlk : api.linkOk <;>
      simp_all [init_opengl, create_shader_program]
  · intro hg hvs
    simp [init_opengl, create_shader_program, h0, hg, hvs]

/-- Witness for C5 as amended: vertex-shader compile failure from the
initial state leaves the ready flag false. -/
theorem c5_witness :
    (init_opengl glApiVsFail initState).1.glInitialized = false :=
  (c5_failure_leaves_uninitialized_but_leaks glApiVsFail initState rfl
    (Or.inr (Or.inl rfl))).1

/-- Counterexample to C6: binding the presenter capability with a null
callback while a previous callback is bound does NOT retain the previous
binding and does NOT report an error: the stored callback becomes null
and the only log line is a non-error note. -/
theorem c6_counterexample :
    (retro_set_video_refresh none
       {initState with videoCb := some 7}).1.videoCb = none ∧
    (retro_set_video_refresh none
       {initState with videoCb := some 7}).2 = [Ev.logNote] :=
  ⟨rfl, rfl⟩

/-- C6 as amended: every capability setter stores the given callback
unconditionally — a null callback overwrites and erases any previous
binding.  retro_set_environment does report an error for a null callback
(after storing it, skipping the negotiation); retro_set_video_refresh
and the input setters store a null callback silently, logging only a
non-error note. -/
theorem c6_null_binding_overwrites (cb : Option Nat) (ok : Bool)
    (s : CoreState) :
    (retro_set_environment cb ok s).1.environCb = cb ∧
    (retro_set_video_refresh cb s).1.videoCb = cb ∧
    (retro_set_input_poll cb s).1.inputPollCb = cb ∧
    (retro_set_input_state cb s).1.inputStateCb = cb ∧
    (retro_set_video_refresh cb s).2 = [Ev.logNote] ∧
    (cb = none → (retro_set_environment cb ok s).2
       = [Ev.err ErrKind.capabilityMissing]) := by
  refine ⟨?_, rfl, rfl, rfl, rfl, ?_⟩
  · cases cb with
    | none => rfl
    | some a =>
      simp only [retro_set_environment]
      split
      · rfl
      · split <;> rfl
  · intro hcb
    subst hcb
    rfl

/-- Witness for C6 as amended: a null environment callback is reported
as an error. -/
theorem c6_witness :
    (retro_set_environment none true initState).2
      = [Ev.err ErrKind.capabilityMissing] :=
  (c6_null_binding_overwrites none true initState).2.2.2.2.2 rfl

end GladCore

namespace GladCore

/-- retro_set_environment never touches use_default_fbo. -/
theorem setEnv_preserves_udf (cb : Option Nat) (ok : Bool) (s : CoreState) :
    (retro_set_environment cb ok s).1.useDefaultFbo = s.useDefaultFbo := by
  cases cb <;> cases hc : s.contentlessSet <;> cases ok <;>
    simp [retro_set_environment, hc]

/-- retro_load_game never clears use_default_fbo (it either leaves it or
forces it to true). -/
theorem load_preserves_udf (env : LoadEnv) (s : CoreState)
    (h : s.useDefaultFbo = true) :
    (retro_load_game env s).2.1.useDefaultFbo = true := by
  cases hec : s.environCb <;> cases hsw : s.useSoftwareRendering <;>
    cases hpf : s.pixelFormatSet <;>
    cases hretry : pfRetryLoop env.pfAnswers 3 <;>
    cases hhw : env.setHwRenderOk <;> cases hg : env.hostGcf <;>
    simp [retro_load_game, hec, hsw, hpf, hretry, hhw, hg, h]

/-- init_opengl never touches use_default_fbo. -/
theorem initGL_preserves_udf (api : GLApi) (s : CoreState) :
    (init_opengl api s).1.useDefaultFbo = s.useDefaultFbo := by
  cases hgl : s.glInitialized <;>
    by_cases hr : (create_shader_program api).1 = 0 <;>
    cases hglad : api.gladOk <;>
    simp [init_opengl, hgl, hr, hglad]

/-- deinit_opengl never touches use_default_fbo. -/
theorem deinitGL_preserves_udf (s : CoreState) :
    (deinit_opengl s).1.useDefaultFbo = s.useDefaultFbo := by
  cases hgl : s.glInitialized <;> simp [deinit_opengl, hgl]

/-- retro_run never clears use_default_fbo (it either leaves it or sets
it to true on a failed surface probe). -/
theorem run_preserves_udf (t : TickHost) (s : CoreState)
    (h : s.useDefaultFbo = true) :
    (retro_run t s).1.useDefaultFbo = true := by
  unfold retro_run softwareTick hardwareTick bindHwFramebuffer
  cases hi : s.initialized <;> cases hsw : s.useSoftwareRendering <;>
    cases hvc : s.videoCb <;> cases hgl : s.glInitialized <;>
    cases hp : t.progLive <;> cases hv : t.vaoLive <;>
    cases hb : t.vboLive <;>
    simp [h, hi, hsw, hvc, hgl, hp, hv, hb]

/-- Every host call preserves a true use_default_fbo flag: no assignment
in lib.c ever sets use_default_fbo to false. -/
theorem step_preserves_udf (s : CoreState) (c : ApiCall)
    (h : s.useDefaultFbo = true) : (step s c).useDefaultFbo = true := by
  cases c with
  | setEnvironment cb ok => rw [step, setEnv_preserves_udf]; exact h
  | setVideoRefresh cb => exact h
  | setInputPoll cb => exact h
  | setInputState cb => exact h
  | init => exact h
  | deinit =>
    show (retro_deinit s).1.useDefaultFbo = true
    rw [retro_deinit]
    simpa [deinitGL_preserves_udf] using h
  | reset => exact h
  | loadGame env => exact load_preserves_udf env s h
  | contextReset api => rw [step, initGL_preserves_udf]; exact h
  | contextDestroy => rw [step, deinitGL_preserves_udf]; exact h
  | run t => exact run_preserves_udf t s h

/-- The use_default_fbo flag stays true along every call sequence. -/
theorem foldl_preserves_udf (calls : List ApiCall) (s : CoreState)
    (h : s.useDefaultFbo = true) :
    (calls.foldl step s).useDefaultFbo = true := by
  induction calls generalizing s with
  | nil => exact h
  | cons c cs ih => exact ih _ (step_preserves_udf s c h)

/-- With use_default_fbo set, retro_run never invokes the stored
get_current_framebuffer callback. -/
theorem run_no_gcf_of_udf (t : TickHost) (s : CoreState)
    (h : s.useDefaultFbo = true) :
    Ev.callGetCurrentFramebuffer ∉ (retro_run t s).2 := by
  unfold retro_run softwareTick hardwareTick bindHwFramebuffer
  repeat' split
  all_goals simp_all

/-- With use_default_fbo set and the tick preconditions satisfied,
retro_run binds the default framebuffer (handle 0). -/
theorem run_binds_zero_of_udf (t : TickHost) (s : CoreState)
    (h : s.useDefaultFbo = true) (h1 : s.initialized = true)
    (h2 : s.useSoftwareRendering = false) (h3 : s.glInitialized = true)
    (hp : t.progLive = true) (hv : t.vaoLive = true)
    (hb : t.vboLive = true) :
    Ev.bindFramebuffer 0 ∈ (retro_run t s).2 := by
  unfold retro_run hardwareTick bindHwFramebuffer
  cases hvc : s.videoCb <;> simp [h, h1, h2, h3, hp, hv, hb, hvc]

/-- A hardware tick that probes the surface-acquire callback and gets a
zero handle or an incomplete target sets use_default_fbo and falls back
to binding the default framebuffer within the same tick. -/
theorem run_failing_tick_sets_udf (t : TickHost) (s : CoreState)
    (h1 : s.initialized = true) (h2 : s.useSoftwareRendering = false)
    (h3 : s.glInitialized = true) (hp : t.progLive = true)
    (hv : t.vaoLive = true) (hb : t.vboLive = true)
    (hud : s.useDefaultFbo = false)
    (hg : s.getCurrentFramebuffer.isNone = false)
    (hfail : t.gcfHandle = 0 ∨ t.fbComplete = false) :
    (retro_run t s).1.useDefaultFbo = true ∧
    Ev.bindFramebuffer 0 ∈ (retro_run t s).2 := by
  unfold retro_run hardwareTick bindHwFramebuffer
  rcases hfail with hf | hf
  · cases hvc : s.videoCb <;> simp [h1, h2, h3, hp, hv, hb, hud, hg, hf, hvc]
  · by_cases hz : t.gcfHandle = 0 <;> cases hvc : s.videoCb <;>
      simp [h1, h2, h3, hp, hv, hb, hud, hg, hf, hz, hvc]

/-- C3: in every reachable state of the core the use-default-target flag
is true — it is initialized true and every assignment to it sets it true
— so on every tick the stored surface-acquire callback is never invoked,
and every hardware-path tick that passes its precondition checks binds
the default framebuffer 0. -/
theorem c3_use_default_fbo_invariant (calls : List ApiCall)
    (t : TickHost) :
    (calls.foldl step initState).useDefaultFbo = true ∧
    Ev.callGetCurrentFramebuffer ∉
      (retro_run t (calls.foldl step initState)).2 ∧
    ((calls.foldl step initState).initialized = true →
     (calls.foldl step initState).useSoftwareRendering = false →
     (calls.foldl step initState).glInitialized = true →
     t.progLive = true → t.vaoLive = true → t.vboLive = true →
     Ev.bindFramebuffer 0 ∈ (retro_run t (calls.foldl step initState)).2) := by
  have hu := foldl_preserves_udf calls initState rfl
  exact ⟨hu, run_no_gcf_of_udf t _ hu,
    fun a b c d e f => run_binds_zero_of_udf t _ hu a b c d e f⟩

/-- Call sequence reaching a hardware-ready state: bind environment,
init, load content in hardware mode, host context-reset, bind video. -/
def c3ScenarioCalls : List ApiCall :=
  [ApiCall.setEnvironment (some 1) true, ApiCall.init,
   ApiCall.loadGame hostEnvOk, ApiCall.contextReset glApiOk,
   ApiCall.setVideoRefresh (some 4)]

/-- Witness for C3: along the concrete scenario reaching a hardware-ready
state, the flag is true and the tick binds the default framebuffer. -/
theorem c3_witness :
    (c3ScenarioCalls.foldl step initState).useDefaultFbo = true ∧
    Ev.bindFramebuffer 0 ∈
      (retro_run tickOk (c3ScenarioCalls.foldl step initState)).2 :=
  ⟨(c3_use_default_fbo_invariant c3ScenarioCalls tickOk).1,
   (c3_use_default_fbo_invariant c3ScenarioCalls tickOk).2.2
     rfl rfl rfl rfl rfl rfl⟩

/-- C1: once a tick observes a zero handle from the surface-acquire
callback (or an incomplete bound target), the fallback flag is set and
the default target is bound within that same tick; after any further
sequence of host calls whatsoever — including retro_reset and
retro_load_game, neither of which clears the flag — every later tick
binds the default framebuffer (when it renders at all) and never invokes
the surface-acquire callback again.  Since no entry point ever clears
the flag, this persistence in particular covers every tick up to any
explicit reset, as the claim states. -/
theorem c1_persistent_fallback (s : CoreState) (t : TickHost)
    (calls : List ApiCall) (t2 : TickHost)
    (h1 : s.initialized = true) (h2 : s.useSoftwareRendering = false)
    (h3 : s.glInitialized = true) (hp : t.progLive = true)
    (hv : t.vaoLive = true) (hb : t.vboLive = true)
    (hud : s.useDefaultFbo = false)
    (hg : s.getCurrentFramebuffer.isNone = false)
    (hfail : t.gcfHandle = 0 ∨ t.fbComplete = false) :
    (retro_run t s).1.useDefaultFbo = true ∧
    Ev.bindFramebuffer 0 ∈ (retro_run t s).2 ∧
    (calls.foldl step (retro_run t s).1).useDefaultFbo = true ∧
    Ev.callGetCurrentFramebuffer ∉
      (retro_run t2 (calls.foldl step (retro_run t s).1)).2 ∧
    ((calls.foldl step (retro_run t s).1).initialized = true →
     (calls.foldl step (retro_run t s).1).useSoftwareRendering = false →
     (calls.foldl step (retro_run t s).1).glInitialized = true →
     t2.progLive = true → t2.vaoLive = true → t2.vboLive = true →
     Ev.bindFramebuffer 0 ∈
       (retro_run t2 (calls.foldl step (retro_run t s).1)).2) := by
  obtain ⟨ha, hbind⟩ :=
    run_failing_tick_sets_udf t s h1 h2 h3 hp hv hb hud hg hfail
  have hu := foldl_preserves_udf calls _ ha
  exact ⟨ha, hbind, hu, run_no_gcf_of_udf t2 _ hu,
    fun a b c d e f => run_binds_zero_of_udf t2 _ hu a b c d e f⟩

/-- Hardware-ready state that would actually probe the surface-acquire
callback: use_default_fbo cleared, callback stored. -/
def hwProbingState : CoreState :=
  {initState with initialized := true, glInitialized := true,
                  useDefaultFbo := false, getCurrentFramebuffer := some 1,
                  videoCb := some 4, solidShaderProgram := 3,
                  vao := 10, vbo := 11}

/-- Tick oracle where the surface-acquire callback returns handle 0. -/
def tickGcfZero : TickHost := ⟨0, true, true, true, true⟩

/-- Witness for C1: after a tick in which the callback returned zero,
followed by a retro_reset, the next tick does not invoke the callback. -/
theorem c1_witness :
    (retro_run tickGcfZero hwProbingState).1.useDefaultFbo = true ∧
    Ev.callGetCurrentFramebuffer ∉
      (retro_run tickGcfZero
        ([ApiCall.reset].foldl step
          (retro_run tickGcfZero hwProbingState).1)).2 := by
  obtain ⟨a, -, -, d, -⟩ :=
    c1_persistent_fallback hwProbingState tickGcfZero [ApiCall.reset]
      tickGcfZero rfl rfl rfl rfl rfl rfl rfl rfl (Or.inl rfl)
  exact ⟨a, d⟩

end GladCore

namespace GladCore

/-- Counterexample to C7: with the input-poll capability bound and every
tick precondition satisfied, the tick never invokes the input-poll
callback — retro_run contains no call to it at all. -/
theorem c7_counterexample :
    hwReadyState.inputPollCb = some 3 ∧
    Ev.inputPoll ∉ (retro_run tickOk hwReadyState).2 := by
  refine ⟨rfl, ?_⟩
  decide

/-- C7 as amended: the per-tick procedure never invokes the input-poll
callback (and never queries input state), in any state, whether or not
the capability is bound; the claimed poll-before-query ordering is
vacuous because neither happens. -/
theorem c7_no_input_poll (t : TickHost) (s : CoreState) :
    Ev.inputPoll ∉ (retro_run t s).2 := by
  have hbind : Ev.inputPoll ∉ (bindHwFramebuffer t s).2 := by
    unfold bindHwFramebuffer
    by_cases h1 : (s.useDefaultFbo || s.getCurrentFramebuffer.isNone) = true <;>
      by_cases h2 : t.gcfHandle = 0 <;> cases h3 : t.fbComplete <;>
      simp [h1, h2, h3]
  unfold retro_run softwareTick hardwareTick
  cases hi : s.initialized <;> cases hsw : s.useSoftwareRendering <;>
    cases hvc : s.videoCb <;> cases hgl : s.glInitialized <;>
    cases hp : t.progLive <;> cases hv : t.vaoLive <;>
    cases hb : t.vboLive <;>
    simp [hi, hsw, hvc, hgl, hp, hv, hb, hbind]

/-- Counterexample to C8: a boolean failure IS escalated to the caller
for an error kind other than ContextInitFailure — retro_load_game
returns false on a missing environment capability (CapabilityMissing),
and no ContextInitFailure occurs on that path, refuting both that only
ContextInitFailure is escalated as a boolean result and that
CapabilityMissing is fully absorbed internally. -/
theorem c8_counterexample :
    (retro_load_game hostEnvOk initState).1 = false ∧
    Ev.err ErrKind.capabilityMissing ∈
      (retro_load_game hostEnvOk initState).2.2 ∧
    Ev.err ErrKind.contextInitFailure ∉
      (retro_load_game hostEnvOk initState).2.2 := by
  refine ⟨rfl, ?_, ?_⟩ <;> decide

/-- C8 as amended: the boolean failure escalated by retro_load_game only
ever reflects a capability failure (CapabilityMissing: unbound
environment callback, refused hardware-render request, or refused
pixel-format negotiation) and never a ContextInitFailure; context
initialization failures are fully absorbed by init_opengl, which has no
result channel — whenever it logs a ContextInitFailure the ready flag is
left false (the only other state effect being the unconditional store
that overwrites the program id with the failed result 0), so nothing
reaches a caller. -/
theorem c8_no_boolean_escalation_of_ctx_init (env : LoadEnv)
    (s : CoreState) (api : GLApi) :
    Ev.err ErrKind.contextInitFailure ∉ (retro_load_game env s).2.2 ∧
    ((retro_load_game env s).1 = false →
       Ev.err ErrKind.capabilityMissing ∈ (retro_load_game env s).2.2) ∧
    (Ev.err ErrKind.contextInitFailure ∈ (init_opengl api s).2 →
       (init_opengl api s).1.glInitialized = false) := by
  refine ⟨?_, ?_, ?_⟩
  · cases hec : s.environCb <;> cases hsw : s.useSoftwareRendering <;>
      cases hpf : s.pixelFormatSet <;>
      cases hretry : pfRetryLoop env.pfAnswers 3 <;>
      cases hhw : env.setHwRenderOk <;> cases hg : env.hostGcf <;>
      simp [retro_load_game, hec, hsw, hpf, hretry, hhw, hg]
  · cases hec : s.environCb <;> cases hsw : s.useSoftwareRendering <;>
      cases hpf : s.pixelFormatSet <;>
      cases hretry : pfRetryLoop env.pfAnswers 3 <;>
      cases hhw : env.setHwRenderOk <;> cases hg : env.hostGcf <;>
      simp [retro_load_game, hec, hsw, hpf, hretry, hhw, hg]
  · cases hgl : s.glInitialized <;> cases hglad : api.gladOk <;>
      cases hvs : api.vsCompileOk <;> cases hfs : api.fsCompileOk <;>
      cases hlk : api.linkOk <;>
      by_cases hr : api.progId = 0 <;>
      simp [init_opengl, create_shader_program, hgl, hglad, hvs, hfs, hlk, hr]

/-- Witness for C8 as amended: the failing load from the initial state
(environment never bound) carries a CapabilityMissing error. -/
theorem c8_witness :
    Ev.err ErrKind.capabilityMissing ∈
      (retro_load_game hostEnvOk initState).2.2 :=
  (c8_no_boolean_escalation_of_ctx_init hostEnvOk initState glApiOk).2.1 rfl

/-- Counterexample to C9: a fully precondition-satisfying hardware tick
draws the quad (x,y,w,h) = (0,0,512,512) — the whole 512-by-512 viewport
— and leaves the state unchanged, so the drawn extents are identical on
every tick (there is no accumulated time in the state at all); yet the
claimed pulsing scale at elapsed time t = 0, namely 0.8 + 0.2*sin(2*0) =
0.8, cannot reproduce a full-viewport width even from a base extent of
the whole viewport, since 0.8 * 512 differs from the 512 actually
drawn. -/
theorem c9_counterexample :
    Ev.drawQuad 0 0 512 512 512 512 0 1 0 1 ∈
      (retro_run tickOk hwReadyState).2 ∧
    (retro_run tickOk hwReadyState).1 = hwReadyState ∧
    (0.8 + 0.2 * Real.sin (2 * 0)) * 512 ≠ (512 : ℝ) := by
  refine ⟨by decide, rfl, ?_⟩
  rw [mul_zero, Real.sin_zero, mul_zero, add_zero]
  norm_num

/-- C9 as amended: every hardware tick that passes its precondition
checks draws the same fixed full-viewport quad — extents (0,0,512,512)
on the 512-by-512 viewport, opaque green — independent of any elapsed
time; retro_run maintains no time counter and computes no sinusoidal
scale. -/
theorem c9_constant_fullscreen_quad (t : TickHost) (s : CoreState)
    (h1 : s.initialized = true) (h2 : s.useSoftwareRendering = false)
    (h3 : s.glInitialized = true) (hp : t.progLive = true)
    (hv : t.vaoLive = true) (hb : t.vboLive = true) :
    Ev.drawQuad 0 0 512 512 512 512 0 1 0 1 ∈ (retro_run t s).2 := by
  unfold retro_run hardwareTick bindHwFramebuffer
  cases hvc : s.videoCb <;>
    by_cases hud : s.useDefaultFbo = true <;>
    by_cases hg : s.getCurrentFramebuffer.isNone = true <;>
    by_cases hz : t.gcfHandle = 0 <;>
    cases hfc : t.fbComplete <;>
    simp [h1, h2, h3, hp, hv, hb, hvc, hud, hg, hz, hfc]

/-- Witness for C9 as amended: the concrete hardware-ready state. -/
theorem c9_witness :
    Ev.drawQuad 0 0 512 512 512 512 0 1 0 1 ∈
      (retro_run tickOk hwReadyState).2 :=
  c9_constant_fullscreen_quad tickOk hwReadyState rfl rfl rfl rfl rfl rfl

/-- C10: in software-fallback mode every tick fills all WIDTH*HEIGHT
(320x240) framebuffer entries with the constant packed color 0x07E0,
issues no GPU call whatsoever, and — when the presenter capability is
bound — presents that buffer with pitch WIDTH * 2 = 640 bytes. -/
theorem c10_software_fill (t : TickHost) (s : CoreState)
    (h1 : s.initialized = true) (h2 : s.useSoftwareRendering = true) :
    (∀ i, i < WIDTH * HEIGHT →
       (retro_run t s).1.framebuffer i = 0x07E0) ∧
    (retro_run t s).2.filter Ev.isGpu = [] ∧
    (s.videoCb.isSome = true →
       (retro_run t s).2 = [Ev.present true WIDTH HEIGHT (WIDTH * 2)]) := by
  unfold retro_run softwareTick
  cases hvc : s.videoCb <;>
    simp [h1, h2, hvc, Ev.isGpu] <;>
    intro i hi <;> simp [hi]

/-- Software-fallback concrete state: initialized, software mode on,
presenter bound. -/
def swState : CoreState :=
  {initState with initialized := true, useSoftwareRendering := true,
                  videoCb := some 4}

/-- Witness for C10: the concrete software state; entry 0 is filled and
the presentation event carries pitch 640. -/
theorem c10_witness :
    (retro_run tickOk swState).1.framebuffer 0 = 0x07E0 ∧
    (retro_run tickOk swState).2 =
      [Ev.present true WIDTH HEIGHT (WIDTH * 2)] := by
  obtain ⟨hf, -, hp⟩ := c10_software_fill tickOk swState rfl rfl
  exact ⟨hf 0 (by decide), hp rfl⟩

end GladCore
